import Mathlib

/-!
Shallow embedding of the event-diary application's data-access and
aggregation logic (`DataManager.get_events`, `DataManager.get_event_count`,
`DataManager.add_event`, `DataManager.update_event`,
`DataManager.bulk_add_events`, and the analytics / export row computations).

Storage rows are modelled as Lean structures; the hosted relational store's
query combinators (`eq`, `in_`, `gte`, `lt`, `order`, `limit`, `range`) are
modelled by the corresponding list operations, applied in the order the
source composes them.  Timestamps are minutes since an epoch (`Nat`); a
calendar date is a day number, and the date portion of a timestamp is
division by `minutesPerDay`.  Python truthiness of the optional filter
values (`if filters.get(...):`) is modelled explicitly: a missing value,
an empty list and an empty string are all falsy, a date value is always
truthy, an integer is truthy iff nonzero.
-/

namespace Diary

/-- A row of the category table (`mu_category`): id, owner, parent area. -/
structure Category where
  id : Nat
  user_id : Nat
  area_id : Nat
  deriving DecidableEq

/-- A row of the event table (`mu_event`).  `occurred_at` is in minutes
since the epoch; `comment` is the comment text as a character list;
`duration_minutes` is the nullable integer column; `data` is the nullable
JSON payload, modelled as an association list. -/
structure Event where
  id : Nat
  user_id : Nat
  category_id : Nat
  occurred_at : Nat
  comment : List Char
  duration_minutes : Option Int := none
  data : Option (List (String × Int)) := none
  deriving DecidableEq

/-- The filter specification passed to `get_events` / `get_event_count`.
A `filters` dict that is `None`, or misses a key, behaves exactly like the
defaults here because the source only ever tests truthiness of each entry. -/
structure Filters where
  category_ids : List Nat := []
  area_ids : List Nat := []
  date_from : Option Nat := none
  date_to : Option Nat := none
  search_text : List Char := []
  deriving DecidableEq

/-- The filter specification used when the caller passes `filters=None`. -/
def emptyFilters : Filters := {}

/-- The backing store: category and event tables. -/
structure DB where
  categories : List Category
  events : List Event

/-- Minutes in one day; `timedelta(days=1)` adds this much. -/
def minutesPerDay : Nat := 1440

/-- Date portion of a timestamp (`occurred_dt.date()`). -/
def dateOf (ts : Nat) : Nat := ts / minutesPerDay

/-- `get_user_categories`: categories owned by the user
(`.eq("user_id", user_id)`; the name ordering is irrelevant here because
the result is only used for membership tests). -/
def get_user_categories (db : DB) (uid : Nat) : List Category :=
  db.categories.filter (fun c => c.user_id == uid)

/-- The category ids the area filter resolves to:
`[c['id'] for c in categories if c.get('area_id') in filters['area_ids']]`. -/
def resolvedCatIds (db : DB) (uid : Nat) (area_ids : List Nat) : List Nat :=
  ((get_user_categories db uid).filter
    (fun c => area_ids.contains c.area_id)).map (fun c => c.id)

/-- The mandatory ownership predicate `.eq("user_id", user_id)`. -/
def userEvents (db : DB) (uid : Nat) : List Event :=
  db.events.filter (fun e => e.user_id == uid)

/-- `if filters.get('category_ids'): query.in_("category_id", ...)`. -/
def catFilter (f : Filters) (l : List Event) : List Event :=
  if f.category_ids.isEmpty then l
  else l.filter (fun e => f.category_ids.contains e.category_id)

/-- `if filters.get('area_ids'):` resolve to category ids, and only when
that list is nonempty (`if cat_ids:`) apply `in_("category_id", cat_ids)`. -/
def areaFilter (db : DB) (uid : Nat) (f : Filters) (l : List Event) : List Event :=
  if f.area_ids.isEmpty then l
  else
    let cat_ids := resolvedCatIds db uid f.area_ids
    if cat_ids.isEmpty then l
    else l.filter (fun e => cat_ids.contains e.category_id)

/-- `if filters.get('date_from'): query.gte("occurred_at", date_from)`:
a timestamp compares `>=` against midnight of the given date. -/
def dateFromFilter (f : Filters) (l : List Event) : List Event :=
  match f.date_from with
  | none => l
  | some a => l.filter (fun e => minutesPerDay * a ≤ e.occurred_at)

/-- `if filters.get('date_to'): end_date = date_to + timedelta(days=1);
query.lt("occurred_at", end_date)`. -/
def dateToFilter (f : Filters) (l : List Event) : List Event :=
  match f.date_to with
  | none => l
  | some b => l.filter (fun e => e.occurred_at < minutesPerDay * (b + 1))

/-- The filtered row set of `get_events`, before ordering and pagination,
with the predicates composed in source order. -/
def eventsQuery (db : DB) (uid : Nat) (f : Filters) : List Event :=
  dateToFilter f (dateFromFilter f (areaFilter db uid f (catFilter f (userEvents db uid))))

/-- Descending order on occurrence timestamp: `order("occurred_at", desc=True)`. -/
def byOccDesc (a b : Event) : Prop := b.occurred_at ≤ a.occurred_at

instance : DecidableRel byOccDesc := fun a b => Nat.decLe b.occurred_at a.occurred_at

instance : IsTotal Event byOccDesc := ⟨fun a b => Nat.le_total b.occurred_at a.occurred_at⟩

instance : IsTrans Event byOccDesc := ⟨fun _ _ _ h1 h2 => Nat.le_trans h2 h1⟩

/-- Sorting the result descending by `occurred_at`. -/
def sortDesc (l : List Event) : List Event := List.insertionSort byOccDesc l

/-- Python truthiness of an optional integer argument. -/
def optTruthy : Option Nat → Bool
  | none => false
  | some n => decide (n ≠ 0)

/-- The pagination query parameters accumulated on the query object. -/
structure PageParams where
  offsetParam : Option Nat := none
  limitParam : Option Nat := none
  deriving DecidableEq

/-- `query.limit(n)` sets the limit parameter. -/
def setLimit (n : Nat) (p : PageParams) : PageParams :=
  { p with limitParam := some n }

/-- `query.range(start, stop)` sets offset `start` and limit `stop - start + 1`. -/
def setRange (start stop : Nat) (p : PageParams) : PageParams :=
  { p with offsetParam := some start, limitParam := some (stop - start + 1) }

/-- The parameters produced by
`if limit: query.limit(limit)` followed by
`if offset: query.range(offset, offset + limit - 1 if limit else offset + 9)`. -/
def pageParams (limit offset : Option Nat) : PageParams :=
  let p : PageParams := {}
  let p := if optTruthy limit then setLimit (limit.getD 0) p else p
  if optTruthy offset then
    setRange (offset.getD 0)
      (if optTruthy limit then offset.getD 0 + limit.getD 0 - 1 else offset.getD 0 + 9) p
  else p

/-- Executing offset/limit parameters over the ordered row set. -/
def applyPage (pp : PageParams) (l : List Event) : List Event :=
  let l := l.drop (pp.offsetParam.getD 0)
  match pp.limitParam with
  | none => l
  | some n => l.take n

/-- Python's substring test `needle in hay` on character lists. -/
def containsSub (needle : List Char) : List Char → Bool
  | [] => needle.isEmpty
  | c :: t => needle.isPrefixOf (c :: t) || containsSub needle t

/-- The client-side text search applied after retrieval:
`if filters.get('search_text'): search_text = ....lower();
events = [e for e in events if search_text in (e.get('comment','') or '').lower()]`. -/
def searchFilter (f : Filters) (l : List Event) : List Event :=
  if f.search_text.isEmpty then l
  else l.filter (fun e =>
    containsSub (f.search_text.map Char.toLower) (e.comment.map Char.toLower))

/-- `DataManager.get_events`: ownership plus optional category, area and
date predicates, ordered descending, paginated, then text-searched client
side. -/
def get_events (db : DB) (uid : Nat) (f : Filters) (limit offset : Option Nat) : List Event :=
  searchFilter f (applyPage (pageParams limit offset) (sortDesc (eventsQuery db uid f)))

/-- `DataManager.get_event_count`: the exact count query, which applies
only the ownership, category-id and date predicates (no area resolution,
no text search). -/
def get_event_count (db : DB) (uid : Nat) (f : Filters) : Nat :=
  (dateToFilter f (dateFromFilter f (catFilter f (userEvents db uid)))).length

/-- Number of distinct occurrence dates (`df['date'].nunique()`). -/
def activeDays (events : List Event) : Nat :=
  ((events.map (fun e => dateOf e.occurred_at)).dedup).length

/-- `avg_per_day = len(df) / max(unique_days, 1)` from the analytics page. -/
def avgPerDay (events : List Event) : ℚ :=
  (events.length : ℚ) / ((max (activeDays events) 1 : ℕ) : ℚ)

/-- The fixed weekday ordering used by the analytics page. -/
def weekdayOrder : List String :=
  ["Monday", "Tuesday", "Wednesday", "Thursday", "Friday", "Saturday", "Sunday"]

/-- The weekday name of an event's naive timestamp (`dt.day_name()`),
modelled as the calendar day number modulo 7 indexing the weekday list. -/
def eventWeekday (e : Event) : String :=
  weekdayOrder.getD (dateOf e.occurred_at % 7) ""

/-- `df.groupby('weekday').size().reindex(weekday_order).fillna(0)`:
for each of the seven names in order, the count of events on that weekday,
zero when absent. -/
def byWeekday (events : List Event) : List (String × Nat) :=
  weekdayOrder.map
    (fun w => (w, (events.filter (fun e => eventWeekday e == w)).length))

/-- Python truthiness of the event's JSON `data` payload (`if e.get('data')`):
a missing payload and an empty dict are both falsy. -/
def dataTruthy : Option (List (String × Int)) → Bool
  | none => false
  | some d => !d.isEmpty

/-- The `Duration (min)` cell of an export row:
`e.get('data', {}).get('duration_minutes', 0) if e.get('data') else 0`. -/
def exportDuration (e : Event) : Int :=
  if dataTruthy e.data then ((e.data.getD []).lookup "duration_minutes").getD 0
  else 0

/-- Whether a table column of the write payload is absent, set to SQL null,
or set to a concrete integer. -/
inductive ColumnValue where
  | absent
  | null
  | value (n : Int)
  deriving DecidableEq

/-- The insert payload built by `DataManager.add_event`: the
`duration_minutes` key is added only when the argument is
`not None and > 0`, the `data` key only when the argument dict is truthy. -/
structure EventPayload where
  category_id : Nat
  occurred_at : Nat
  comment : List Char
  duration_minutes_col : ColumnValue
  data : Option (List (String × Int))
  deriving DecidableEq

/-- `DataManager.add_event`, as the payload it submits to `insert`. -/
def add_event (category_id occurred_at : Nat) (comment : List Char)
    (duration_minutes : Option Int) (data : Option (List (String × Int))) : EventPayload :=
  { category_id := category_id
    occurred_at := occurred_at
    comment := comment
    duration_minutes_col :=
      match duration_minutes with
      | some d => if 0 < d then ColumnValue.value d else ColumnValue.absent
      | none => ColumnValue.absent
    data :=
      match data with
      | some d => if d.isEmpty then none else some d
      | none => none }

/-- `DataManager.update_event`, as the payload it submits to `update`:
the `duration_minutes` key is always present, `None` unless the argument
is `not None and > 0`. -/
def update_event (category_id occurred_at : Nat) (comment : List Char)
    (duration_minutes : Option Int) (data : Option (List (String × Int))) : EventPayload :=
  { category_id := category_id
    occurred_at := occurred_at
    comment := comment
    duration_minutes_col :=
      match duration_minutes with
      | some d => if 0 < d then ColumnValue.value d else ColumnValue.null
      | none => ColumnValue.null
    data :=
      match data with
      | some d => if d.isEmpty then none else some d
      | none => none }

/-- The stored row an `insert` of a payload produces: an absent nullable
column defaults to SQL null. -/
def insertedEvent (id uid : Nat) (p : EventPayload) : Event :=
  { id := id
    user_id := uid
    category_id := p.category_id
    occurred_at := p.occurred_at
    comment := p.comment
    duration_minutes :=
      match p.duration_minutes_col with
      | ColumnValue.value n => some n
      | ColumnValue.null => none
      | ColumnValue.absent => none
    data := p.data }

/-- The effect of an `update` payload on a stored row: an absent key leaves
the column unchanged, a null key clears it, a value key overwrites it. -/
def applyUpdate (e : Event) (p : EventPayload) : Event :=
  { e with
    category_id := p.category_id
    occurred_at := p.occurred_at
    comment := p.comment
    duration_minutes :=
      match p.duration_minutes_col with
      | ColumnValue.value n => some n
      | ColumnValue.null => none
      | ColumnValue.absent => e.duration_minutes
    data :=
      match p.data with
      | some d => some d
      | none => e.data }

/-- The stored row produced by importing one CSV row on the bulk-import
page: the duration goes into the `data` JSON payload
(`event_dict['data'] = {"duration_minutes": ...}`), never into the
`duration_minutes` column. -/
def csvImportedEvent (id uid category_id occurred_at : Nat) (comment : List Char)
    (dur : Option Int) : Event :=
  { id := id
    user_id := uid
    category_id := category_id
    occurred_at := occurred_at
    comment := comment
    duration_minutes := none
    data :=
      match dur with
      | some d => some [("duration_minutes", d)]
      | none => none }

/-- A proposed row handed to `bulk_add_events` before stamping. -/
structure BulkRow where
  category_id : Nat
  occurred_at : Nat
  comment : List Char
  duration_minutes : Option Int := none
  data : Option (List (String × Int)) := none
  deriving DecidableEq

/-- A row after `bulk_add_events` stamps in the user id and creation time. -/
structure StampedRow where
  row : BulkRow
  user_id : Nat
  created_at : Nat
  deriving DecidableEq

/-- The value `bulk_add_events` returns to its caller. -/
inductive BulkResult where
  | success (count : Nat)
  | error (msg : String)
  deriving DecidableEq

/-- `DataManager.bulk_add_events`: stamp every row with the user id and a
creation timestamp, submit the batch once; on success report
`len(events_data)`, on an exception report the message alone.
`insertResult` is the outcome of the single backend `insert` call. -/
def bulk_add_events (insertResult : Except String Unit) (events_data : List BulkRow)
    (uid now : Nat) : BulkResult :=
  let stamped := events_data.map (fun r => StampedRow.mk r uid now)
  match insertResult with
  | Except.ok _ => BulkResult.success stamped.length
  | Except.error msg => BulkResult.error msg

/-- A minimal event row used by concrete instances below. -/
def mkEv (id occ : Nat) : Event :=
  { id := id, user_id := 1, category_id := 1, occurred_at := occ, comment := [] }

/-- Store with two categories (areas 1 and 2) and one event in category 1. -/
def c1Db : DB :=
  { categories := [{ id := 1, user_id := 1, area_id := 1 }, { id := 2, user_id := 1, area_id := 2 }]
    events := [mkEv 1 0] }

/-- A filter specification carrying only a text search. -/
def c1SearchFilters : Filters := { search_text := ['z'] }

/-- A filter specification carrying only an area filter that resolves to
category 2. -/
def c1AreaFilters : Filters := { area_ids := [2] }

/-- A filter specification with category ids and a date range only. -/
def c1OkFilters : Filters := { category_ids := [1], date_from := some 0, date_to := some 5 }

/-- Store whose single user category lies in area 1, with one event. -/
def c2Db : DB :=
  { categories := [{ id := 1, user_id := 1, area_id := 1 }]
    events := [mkEv 1 0] }

/-- An area filter naming only area 2, which owns none of the user's
categories. -/
def c2BadFilters : Filters := { area_ids := [2] }

/-- An area filter naming area 1, which resolves to category 1. -/
def c2GoodFilters : Filters := { area_ids := [1] }

/-- Store holding events of two different users. -/
def c3Db : DB :=
  { categories := []
    events := [mkEv 1 100, { id := 2, user_id := 8, category_id := 1, occurred_at := 50, comment := [] }] }

/-- Store with three events of one user on distinct timestamps. -/
def c4Db : DB :=
  { categories := [], events := [mkEv 1 10, mkEv 2 2000, mkEv 3 3000] }

/-- One event in the middle of day 1. -/
def c5Db : DB := { categories := [], events := [mkEv 1 1500] }

/-- The date range [day 1, day 2]. -/
def c5Filters : Filters := { date_from := some 1, date_to := some 2 }

/-- Ten events spread over exactly four distinct calendar days. -/
def tenEventsFourDays : List Event :=
  [mkEv 1 10, mkEv 2 20, mkEv 3 30,
   mkEv 4 1450, mkEv 5 1500, mkEv 6 1600,
   mkEv 7 2900, mkEv 8 2950,
   mkEv 9 4400, mkEv 10 4500]

/-- An event stored through the `add_event` path with a 45-minute duration
and no JSON payload. -/
def c9StoredEvent : Event := insertedEvent 1 1 (add_event 3 100 [] (some 45) none)

/-
Theorems.  Every claim theorem is stated over the definitions above.
-/

theorem mem_of_mem_searchFilter {f : Filters} {l : List Event} {e : Event}
    (h : e ∈ searchFilter f l) : e ∈ l := by
  unfold searchFilter at h
  split at h
  · exact h
  · exact List.mem_of_mem_filter h

theorem mem_of_mem_applyPage {pp : PageParams} {l : List Event} {e : Event}
    (h : e ∈ applyPage pp l) : e ∈ l := by
  unfold applyPage at h
  split at h
  · exact List.drop_subset _ _ h
  · exact List.drop_subset _ _ (List.take_subset _ _ h)

theorem mem_sortDesc {l : List Event} {e : Event} : e ∈ sortDesc l ↔ e ∈ l :=
  (List.perm_insertionSort byOccDesc l).mem_iff

theorem mem_of_mem_dateToFilter {f : Filters} {l : List Event} {e : Event}
    (h : e ∈ dateToFilter f l) : e ∈ l := by
  unfold dateToFilter at h
  split at h
  · exact h
  · exact List.mem_of_mem_filter h

theorem mem_of_mem_dateFromFilter {f : Filters} {l : List Event} {e : Event}
    (h : e ∈ dateFromFilter f l) : e ∈ l := by
  unfold dateFromFilter at h
  split at h
  · exact h
  · exact List.mem_of_mem_filter h

theorem mem_of_mem_areaFilter {db : DB} {uid : Nat} {f : Filters} {l : List Event} {e : Event}
    (h : e ∈ areaFilter db uid f l) : e ∈ l := by
  unfold areaFilter at h
  split at h
  · exact h
  · dsimp only at h
    split at h
    · exact h
    · exact List.mem_of_mem_filter h

theorem mem_of_mem_catFilter {f : Filters} {l : List Event} {e : Event}
    (h : e ∈ catFilter f l) : e ∈ l := by
  unfold catFilter at h
  split at h
  · exact h
  · exact List.mem_of_mem_filter h

theorem mem_eventsQuery_of_mem_get_events {db : DB} {uid : Nat} {f : Filters}
    {li off : Option Nat} {e : Event}
    (h : e ∈ get_events db uid f li off) : e ∈ eventsQuery db uid f := by
  unfold get_events at h
  exact mem_sortDesc.1 (mem_of_mem_applyPage (mem_of_mem_searchFilter h))

theorem user_eq_of_mem_get_events {db : DB} {uid : Nat} {f : Filters}
    {li off : Option Nat} {e : Event}
    (h : e ∈ get_events db uid f li off) : e.user_id = uid := by
  have h1 := mem_eventsQuery_of_mem_get_events h
  unfold eventsQuery at h1
  have h2 : e ∈ userEvents db uid :=
    mem_of_mem_catFilter (mem_of_mem_areaFilter
      (mem_of_mem_dateFromFilter (mem_of_mem_dateToFilter h1)))
  unfold userEvents at h2
  simpa using (List.mem_filter.1 h2).2

theorem get_events_none (db : DB) (uid : Nat) (f : Filters) :
    get_events db uid f none none = searchFilter f (sortDesc (eventsQuery db uid f)) := by
  simp [get_events, pageParams, applyPage, optTruthy]

/-- Claim C3: every event returned by `get_events` is owned by the
requesting user; and with no category, area, date or search constraint the
returned list is a permutation of exactly the user's events. -/
theorem c3_ownership (db : DB) (uid : Nat) (f : Filters) (li off : Option Nat) :
    (∀ e ∈ get_events db uid f li off, e.user_id = uid) ∧
    (get_events db uid emptyFilters none none).Perm
      (db.events.filter (fun e => e.user_id == uid)) := by
  constructor
  · intro e he
    exact user_eq_of_mem_get_events he
  · rw [get_events_none]
    have h1 : eventsQuery db uid emptyFilters = userEvents db uid := rfl
    have h2 : searchFilter emptyFilters (sortDesc (userEvents db uid))
        = sortDesc (userEvents db uid) := rfl
    rw [h1, h2]
    exact List.perm_insertionSort byOccDesc _

/-- Witness for C3 at a concrete store: the first event of `c3Db` is
returned to user 1 and is indeed owned by user 1. -/
theorem c3_ownership_witness : (mkEv 1 100).user_id = 1 :=
  (c3_ownership c3Db 1 emptyFilters none none).1 (mkEv 1 100) (by decide)

theorem dateTo_pred {f : Filters} {l : List Event} {e : Event} {b : Nat}
    (hb : f.date_to = some b) (h : e ∈ dateToFilter f l) :
    e.occurred_at < minutesPerDay * (b + 1) := by
  unfold dateToFilter at h
  rw [hb] at h
  simpa using (List.mem_filter.1 h).2

theorem dateFrom_pred {f : Filters} {l : List Event} {e : Event} {a : Nat}
    (ha : f.date_from = some a) (h : e ∈ dateFromFilter f l) :
    minutesPerDay * a ≤ e.occurred_at := by
  unfold dateFromFilter at h
  rw [ha] at h
  simpa using (List.mem_filter.1 h).2

/-- Claim C5: with a date range `[a, b]` every returned event's date
portion of `occurred_at` lies in `[a, b]`, and the implementation bounds
are exactly `occurred_at >= a` (midnight) and `occurred_at < b + 1 day`. -/
theorem c5_date_range (db : DB) (uid : Nat) (f : Filters) (li off : Option Nat)
    (a b : Nat) (e : Event) (ha : f.date_from = some a) (hb : f.date_to = some b)
    (he : e ∈ get_events db uid f li off) :
    (a ≤ dateOf e.occurred_at ∧ dateOf e.occurred_at ≤ b) ∧
    (minutesPerDay * a ≤ e.occurred_at ∧ e.occurred_at < minutesPerDay * (b + 1)) := by
  have h1 := mem_eventsQuery_of_mem_get_events he
  unfold eventsQuery at h1
  have hlt := dateTo_pred hb h1
  have hge := dateFrom_pred ha (mem_of_mem_dateToFilter h1)
  refine ⟨⟨?_, ?_⟩, hge, hlt⟩
  · unfold dateOf minutesPerDay at *
    omega
  · unfold dateOf minutesPerDay at *
    omega

/-- Witness for C5: the event at minute 1500 (day 1) is returned for the
range [day 1, day 2] and satisfies both bound forms. -/
theorem c5_date_range_witness :
    (1 ≤ dateOf (mkEv 1 1500).occurred_at ∧ dateOf (mkEv 1 1500).occurred_at ≤ 2) ∧
    (minutesPerDay * 1 ≤ (mkEv 1 1500).occurred_at ∧
      (mkEv 1 1500).occurred_at < minutesPerDay * (2 + 1)) :=
  c5_date_range c5Db 1 c5Filters none none 1 2 (mkEv 1 1500) rfl rfl (by decide)

theorem resolvedCatIds_nil (db : DB) (uid : Nat) : resolvedCatIds db uid [] = [] := by
  unfold resolvedCatIds
  have h : (get_user_categories db uid).filter (fun c => List.contains [] c.area_id) = [] := by
    induction get_user_categories db uid with
    | nil => rfl
    | cons c t ih => simp [List.filter, ih]
  rw [h]
  rfl

/-- Claim C2 (amended part): when the specified areas resolve to a
non-empty list of the user's category ids, every returned event's category
id belongs to that list. -/
theorem c2_area_restrict (db : DB) (uid : Nat) (f : Filters) (li off : Option Nat)
    (e : Event) (h : resolvedCatIds db uid f.area_ids ≠ [])
    (he : e ∈ get_events db uid f li off) :
    e.category_id ∈ resolvedCatIds db uid f.area_ids := by
  have h1 := mem_eventsQuery_of_mem_get_events he
  unfold eventsQuery at h1
  have h2 : e ∈ areaFilter db uid f (catFilter f (userEvents db uid)) :=
    mem_of_mem_dateFromFilter (mem_of_mem_dateToFilter h1)
  have hA : f.area_ids.isEmpty = false := by
    rcases hFa : f.area_ids with _ | ⟨x, t⟩
    · rw [hFa] at h
      exact absurd (resolvedCatIds_nil db uid) h
    · rfl
  have hB : (resolvedCatIds db uid f.area_ids).isEmpty = false := by
    rcases hR : resolvedCatIds db uid f.area_ids with _ | ⟨x, t⟩
    · exact absurd hR h
    · rfl
  simp only [areaFilter, hA, hB, Bool.false_eq_true, if_false] at h2
  have := (List.mem_filter.1 h2).2
  simpa [List.contains] using this

/-- Counterexample to C2 as stated: area 2 owns none of the user's
categories, yet the result is the full event list, not the empty set. -/
theorem c2_counterexample :
    resolvedCatIds c2Db 1 c2BadFilters.area_ids = [] ∧
    get_events c2Db 1 c2BadFilters none none = [mkEv 1 0] := by
  decide

/-- Witness for C2 (amended): with area 1 the resolution is `[1]` and the
returned event's category id lies in it. -/
theorem c2_area_restrict_witness :
    (mkEv 1 0).category_id ∈ resolvedCatIds c2Db 1 c2GoodFilters.area_ids :=
  c2_area_restrict c2Db 1 c2GoodFilters none none (mkEv 1 0) (by decide) (by decide)

/-- Claim C1 (amended part): when the filter specification contains no
area ids and no search text, the count query agrees with the length of the
unpaginated list. -/
theorem c1_count_eq (db : DB) (uid : Nat) (f : Filters)
    (h1 : f.area_ids = []) (h2 : f.search_text = []) :
    get_event_count db uid f = (get_events db uid f none none).length := by
  rw [get_events_none]
  have hs : searchFilter f (sortDesc (eventsQuery db uid f))
      = sortDesc (eventsQuery db uid f) := by
    simp [searchFilter, h2]
  rw [hs]
  have hl : (sortDesc (eventsQuery db uid f)).length = (eventsQuery db uid f).length :=
    (List.perm_insertionSort byOccDesc _).length_eq
  rw [hl]
  unfold eventsQuery get_event_count
  have ha : areaFilter db uid f (catFilter f (userEvents db uid))
      = catFilter f (userEvents db uid) := by
    simp [areaFilter, h1]
  rw [ha]

/-- Counterexample to C1 as stated: a search-text filter and an area
filter each make the count differ from the unpaginated list length. -/
theorem c1_counterexample :
    get_event_count c1Db 1 c1SearchFilters
        ≠ (get_events c1Db 1 c1SearchFilters none none).length ∧
    get_event_count c1Db 1 c1AreaFilters
        ≠ (get_events c1Db 1 c1AreaFilters none none).length := by
  decide

/-- Witness for C1 (amended): with category and date filters only, the
count equals the unpaginated list length on a concrete store. -/
theorem c1_count_eq_witness :
    get_event_count c1Db 1 c1OkFilters = (get_events c1Db 1 c1OkFilters none none).length :=
  c1_count_eq c1Db 1 c1OkFilters rfl rfl

theorem searchFilter_append (f : Filters) (l1 l2 : List Event) :
    searchFilter f (l1 ++ l2) = searchFilter f l1 ++ searchFilter f l2 := by
  by_cases h : f.search_text.isEmpty <;> simp [searchFilter, h, List.filter_append]

theorem searchFilter_flatten (f : Filters) (g : Nat → List Event) (ks : List Nat) :
    (ks.map (fun k => searchFilter f (g k))).flatten = searchFilter f ((ks.map g).flatten) := by
  induction ks with
  | nil => by_cases h : f.search_text.isEmpty <;> simp [searchFilter, h]
  | cons k t ih => simp [List.flatten_cons, ih, searchFilter_append]

theorem flatten_pages (l : List Event) (p : Nat) :
    ∀ n, l.length ≤ n * p →
      ((List.range n).map (fun k => (l.drop (k * p)).take p)).flatten = l := by
  intro n
  induction n generalizing l with
  | zero =>
    intro hn
    have : l = [] := List.eq_nil_of_length_eq_zero (by omega)
    simp [this]
  | succ n ih =>
    intro hn
    rw [List.range_succ_eq_map]
    rw [List.map_cons, List.map_map, List.flatten_cons]
    have hfun : ((fun k => (l.drop (k * p)).take p) ∘ Nat.succ)
        = fun k => (((l.drop p).drop (k * p)).take p) := by
      funext k
      have h1 : Nat.succ k * p = p + k * p := by
        rw [Nat.succ_mul, Nat.add_comm]
      rw [Function.comp_apply, h1, List.drop_drop]
    rw [hfun]
    have hlen : (l.drop p).length ≤ n * p := by
      rw [List.length_drop]
      rw [Nat.succ_mul] at hn
      omega
    rw [ih (l.drop p) hlen]
    simp [List.take_append_drop]

theorem get_events_page (db : DB) (uid : Nat) (f : Filters) (p k : Nat) (hp : 1 ≤ p) :
    get_events db uid f (some p) (some (k * p)) =
      searchFilter f (((sortDesc (eventsQuery db uid f)).drop (k * p)).take p) := by
  unfold get_events
  congr 1
  have hpp : optTruthy (some p) = true := by
    simp [optTruthy]
    omega
  by_cases h0 : k * p = 0
  · have hoff : optTruthy (some (k * p)) = false := by simp [optTruthy, h0]
    have hp0 : ¬ p = 0 := by omega
    simp [pageParams, optTruthy, hoff, hp0, setLimit, applyPage, h0]
  · have hoff : optTruthy (some (k * p)) = true := by simp [optTruthy, h0]
    have harith : k * p + p - 1 - (k * p) + 1 = p := by omega
    simp [pageParams, hoff, hpp, setLimit, setRange, applyPage, harith]

/-- Claim C4: for any page size `p >= 1`, concatenating the pages at
offsets `0, p, 2p, ...` (enough of them to cover the filtered row set)
reproduces exactly the full unpaginated result of `get_events`, which is
ordered descending by `occurred_at`. -/
theorem c4_pagination (db : DB) (uid : Nat) (f : Filters) (p n : Nat) (hp : 1 ≤ p)
    (hn : (sortDesc (eventsQuery db uid f)).length ≤ n * p) :
    ((List.range n).map (fun k => get_events db uid f (some p) (some (k * p)))).flatten
      = get_events db uid f none none
    ∧ List.Pairwise byOccDesc (get_events db uid f none none) := by
  constructor
  · have hmap : (List.range n).map (fun k => get_events db uid f (some p) (some (k * p)))
        = (List.range n).map
            (fun k => searchFilter f (((sortDesc (eventsQuery db uid f)).drop (k * p)).take p)) :=
      List.map_congr_left (fun k _ => get_events_page db uid f p k hp)
    rw [hmap,
      searchFilter_flatten f (fun k => ((sortDesc (eventsQuery db uid f)).drop (k * p)).take p),
      flatten_pages _ p n hn, get_events_none]
  · rw [get_events_none]
    have hs : List.Pairwise byOccDesc (sortDesc (eventsQuery db uid f)) :=
      List.sorted_insertionSort byOccDesc (eventsQuery db uid f)
    unfold searchFilter
    split
    · exact hs
    · exact List.Pairwise.sublist (List.filter_sublist _) hs

/-- Witness for C4: two pages of size 2 over the three-event store
concatenate to the full descending list. -/
theorem c4_pagination_witness :
    ((List.range 2).map (fun k => get_events c4Db 1 emptyFilters (some 2) (some (k * 2)))).flatten
      = get_events c4Db 1 emptyFilters none none
    ∧ List.Pairwise byOccDesc (get_events c4Db 1 emptyFilters none none) :=
  c4_pagination c4Db 1 emptyFilters 2 2 (by decide) (by decide)

/-- Claim C6: `bulk_add_events` either reports success with a count equal
to the input length, or reports a single error; it never reports success
with any other count. -/
theorem c6_bulk_all_or_nothing (ins : Except String Unit) (rows : List BulkRow)
    (uid now : Nat) :
    bulk_add_events ins rows uid now = BulkResult.success rows.length
    ∨ ∃ msg, bulk_add_events ins rows uid now = BulkResult.error msg := by
  cases ins with
  | ok u => exact Or.inl (by simp [bulk_add_events])
  | error msg => exact Or.inr ⟨msg, rfl⟩

/-- Claim C7: on a non-empty event set the analytics average per day is
`total / max(distinct dates, 1)`, the guarded divisor equals the distinct
date count and is at least 1 (so no division by zero), and for ten events
over four distinct days the value is exactly 2.5. -/
theorem c7_average_per_day (events : List Event) (h : events ≠ []) :
    avgPerDay events = (events.length : ℚ) / ((max (activeDays events) 1 : ℕ) : ℚ)
    ∧ 1 ≤ activeDays events
    ∧ max (activeDays events) 1 = activeDays events
    ∧ avgPerDay tenEventsFourDays = 5 / 2 := by
  have hact : 1 ≤ activeDays events := by
    rcases List.exists_mem_of_ne_nil events h with ⟨e, he⟩
    have hm : dateOf e.occurred_at ∈ (events.map (fun x => dateOf x.occurred_at)).dedup := by
      rw [List.mem_dedup]
      exact List.mem_map_of_mem _ he
    have := List.length_pos_of_mem hm
    unfold activeDays
    omega
  refine ⟨rfl, hact, Nat.max_eq_left hact, ?_⟩
  have h10 : tenEventsFourDays.length = 10 := by decide
  have h4 : activeDays tenEventsFourDays = 4 := by decide
  unfold avgPerDay
  rw [h10, h4]
  norm_num

/-- Witness for C7 at the concrete ten-event set. -/
theorem c7_average_per_day_witness :
    avgPerDay tenEventsFourDays
        = (tenEventsFourDays.length : ℚ) / ((max (activeDays tenEventsFourDays) 1 : ℕ) : ℚ)
    ∧ 1 ≤ activeDays tenEventsFourDays
    ∧ max (activeDays tenEventsFourDays) 1 = activeDays tenEventsFourDays
    ∧ avgPerDay tenEventsFourDays = 5 / 2 :=
  c7_average_per_day tenEventsFourDays (by decide)

theorem weekday_indicator_sum (e : Event) :
    (weekdayOrder.map (fun w => if eventWeekday e == w then 1 else 0)).sum = 1 := by
  have hk : ∀ k, k < 7 →
      (weekdayOrder.map (fun w => if weekdayOrder.getD k "" == w then 1 else 0)).sum = 1 := by
    decide
  have h7 : dateOf e.occurred_at % 7 < 7 := Nat.mod_lt _ (by omega)
  unfold eventWeekday
  exact hk (dateOf e.occurred_at % 7) h7

theorem sum_map_add_nat (l : List String) (f g : String → Nat) :
    (l.map (fun w => f w + g w)).sum = (l.map f).sum + (l.map g).sum := by
  induction l with
  | nil => rfl
  | cons a t ih =>
    simp only [List.map_cons, List.sum_cons, ih]
    omega

theorem filter_length_cons (p : Event → Bool) (e : Event) (l : List Event) :
    (List.filter p (e :: l)).length = (if p e then 1 else 0) + (List.filter p l).length := by
  by_cases h : p e
  · simp [List.filter_cons, h]
    omega
  · simp [List.filter_cons, h]

theorem weekday_counts_sum (events : List Event) :
    (weekdayOrder.map
        (fun w => (events.filter (fun e => eventWeekday e == w)).length)).sum
      = events.length := by
  induction events with
  | nil => rfl
  | cons e t ih =>
    have hsplit : weekdayOrder.map
          (fun w => (List.filter (fun x => eventWeekday x == w) (e :: t)).length)
        = weekdayOrder.map (fun w =>
            (if eventWeekday e == w then 1 else 0)
              + (List.filter (fun x => eventWeekday x == w) t).length) :=
      List.map_congr_left (fun w _ => filter_length_cons _ e t)
    rw [hsplit, sum_map_add_nat, weekday_indicator_sum e, ih]
    simp [Nat.add_comm]

/-- Claim C8: the by-weekday aggregation always has exactly the seven
weekday names Monday through Sunday as its keys in order, its counts sum
to the total event count, and a weekday with no events appears with count
zero. -/
theorem c8_by_weekday (events : List Event) :
    (byWeekday events).map Prod.fst = weekdayOrder
    ∧ ((byWeekday events).map Prod.snd).sum = events.length
    ∧ ∀ w ∈ weekdayOrder, (∀ e ∈ events, eventWeekday e ≠ w) → (w, 0) ∈ byWeekday events := by
  refine ⟨?_, ?_, ?_⟩
  · have hid : (Prod.fst ∘ fun w : String =>
        (w, (List.filter (fun e => eventWeekday e == w) events).length)) = id := by
      funext w
      rfl
    simp [byWeekday, List.map_map, hid]
  · have hsnd : (byWeekday events).map Prod.snd
        = weekdayOrder.map (fun w => (events.filter (fun e => eventWeekday e == w)).length) := by
      simp [byWeekday, List.map_map, Function.comp]
    rw [hsnd, weekday_counts_sum]
  · intro w hw hnone
    have hfil : events.filter (fun e => eventWeekday e == w) = [] := by
      apply List.filter_eq_nil_iff.2
      intro e he
      simpa using hnone e he
    have hm : (w, (events.filter (fun e => eventWeekday e == w)).length) ∈ byWeekday events :=
      List.mem_map_of_mem _ hw
    rw [hfil] at hm
    simpa using hm

/-- Witness for C8: the ten-event set covers Monday through Thursday only,
so Sunday appears with count zero, and the seven counts sum to ten. -/
theorem c8_by_weekday_witness :
    (byWeekday tenEventsFourDays).map Prod.fst = weekdayOrder
    ∧ ((byWeekday tenEventsFourDays).map Prod.snd).sum = tenEventsFourDays.length
    ∧ ("Sunday", 0) ∈ byWeekday tenEventsFourDays :=
  ⟨(c8_by_weekday tenEventsFourDays).1, (c8_by_weekday tenEventsFourDays).2.1,
    (c8_by_weekday tenEventsFourDays).2.2 "Sunday" (by decide) (by decide)⟩

/-- Claim C9: the export row reads the duration from the `data` JSON
payload, so an event stored through `add_event` (duration in the
`duration_minutes` column, no payload) exports `Duration (min)` 0, while a
CSV bulk-imported event (duration written into the payload) exports its
duration. -/
theorem c9_export_duration (e : Event)
    (he : e.data = none ∨ (e.data.getD []).lookup "duration_minutes" = none)
    (id uid cat occ : Nat) (c : List Char) (d : Int) (hd : 0 < d) :
    exportDuration e = 0
    ∧ (insertedEvent id uid (add_event cat occ c (some d) none)).duration_minutes = some d
    ∧ exportDuration (insertedEvent id uid (add_event cat occ c (some d) none)) = 0
    ∧ exportDuration (csvImportedEvent id uid cat occ c (some d)) = d := by
  refine ⟨?_, ?_, ?_, ?_⟩
  · unfold exportDuration
    rcases he with h | h
    · simp [dataTruthy, h]
    · by_cases ht : dataTruthy e.data
      · simp [ht, h]
      · simp [ht]
  · simp [insertedEvent, add_event, hd]
  · simp [exportDuration, insertedEvent, add_event, dataTruthy, hd]
  · simp [exportDuration, csvImportedEvent, dataTruthy, List.lookup]

/-- Witness for C9: a 45-minute event stored via `add_event` exports 0,
while the same duration imported via CSV exports 45. -/
theorem c9_export_duration_witness :
    exportDuration c9StoredEvent = 0
    ∧ (insertedEvent 1 1 (add_event 3 100 [] (some 45) none)).duration_minutes = some 45
    ∧ exportDuration (insertedEvent 1 1 (add_event 3 100 [] (some 45) none)) = 0
    ∧ exportDuration (csvImportedEvent 1 1 3 100 [] (some 45)) = 45 :=
  c9_export_duration c9StoredEvent (Or.inl (by decide)) 1 1 3 100 [] 45 (by decide)

/-- Claim C10: with a duration argument of `None`, zero or negative,
`add_event` omits the `duration_minutes` key entirely (the inserted row's
column stays at its null default), while `update_event` writes an explicit
null, clearing any previously stored duration. -/
theorem c10_duration_null_vs_absent (cat occ : Nat) (c : List Char)
    (dat : Option (List (String × Int))) (dm : Option Int)
    (h : dm = none ∨ ∃ n, dm = some n ∧ n ≤ 0) (e : Event) (id uid : Nat) :
    (add_event cat occ c dm dat).duration_minutes_col = ColumnValue.absent
    ∧ (update_event cat occ c dm dat).duration_minutes_col = ColumnValue.null
    ∧ (applyUpdate e (update_event cat occ c dm dat)).duration_minutes = none
    ∧ (insertedEvent id uid (add_event cat occ c dm dat)).duration_minutes = none := by
  have hcola : (add_event cat occ c dm dat).duration_minutes_col = ColumnValue.absent := by
    rcases h with h | ⟨n, hn, hle⟩
    · simp [add_event, h]
    · simp only [add_event, hn]
      rw [if_neg (by omega)]
  have hcolu : (update_event cat occ c dm dat).duration_minutes_col = ColumnValue.null := by
    rcases h with h | ⟨n, hn, hle⟩
    · simp [update_event, h]
    · simp only [update_event, hn]
      rw [if_neg (by omega)]
  refine ⟨hcola, hcolu, ?_, ?_⟩
  · simp [applyUpdate, hcolu]
  · simp [insertedEvent, hcola]

/-- Witness for C10 at duration -3: the insert payload omits the column,
the update payload nulls it, and the update clears a stored 30-minute
duration. -/
theorem c10_duration_null_vs_absent_witness :
    (add_event 1 0 [] (some (-3)) none).duration_minutes_col = ColumnValue.absent
    ∧ (update_event 1 0 [] (some (-3)) none).duration_minutes_col = ColumnValue.null
    ∧ (applyUpdate { mkEv 1 0 with duration_minutes := some 30 }
        (update_event 1 0 [] (some (-3)) none)).duration_minutes = none
    ∧ (insertedEvent 2 1 (add_event 1 0 [] (some (-3)) none)).duration_minutes = none :=
  c10_duration_null_vs_absent 1 0 [] none (some (-3))
    (Or.inr ⟨-3, rfl, by decide⟩) { mkEv 1 0 with duration_minutes := some 30 } 2 1

end Diary
